import Mathlib

/-!
Shallow embedding of the 4co4co-pipeline music quality evaluation engine.

Numeric model: Python floats are modelled as exact rationals (ℚ).  External
library calls (scipy.signal.stft, librosa beat/pitch/hpss/feature extraction,
the CLAP similarity oracle, numpy std) are modelled as inputs: a `Clip` carries
the magnitudes of its short-time spectral transform, and the musical checks
receive the library outputs (or `none` when the library call raised an
exception, which the source catches per check).  The informational `reason`
string of each check result is omitted: no property depends on it.
-/

namespace FourCo

/-- Result value returned by every filter (src/filters: dicts with keys
`passed`, `score`, `reason`; the `reason` string is omitted here). -/
structure CheckResult where
  passed : Bool
  score : ℚ
deriving DecidableEq, Repr

/-- Model of the output of `scipy.signal.stft(audio_data, sample_rate, nperseg=1024)`:
the frequency bins `f` and the magnitudes `|Zxx|`, stored per time frame (each
inner list holds one magnitude per frequency bin; the frame count `len(t)` is
the number of frames). -/
structure Stft where
  freqs : List ℚ
  frames : List (List ℚ)
deriving Repr

/-- An audio clip: sample count, sample rate and the (modelled) spectral
transform the basic filters compute from it. -/
structure Clip where
  audioLen : ℕ
  sampleRate : ℕ
  stft : Stft
deriving Repr

/-- Arithmetic mean of a list of rationals (np.mean); mean of the empty list
is 0 here (the code never takes a mean of an empty list on a guarded path). -/
def qmean (l : List ℚ) : ℚ := l.sum / l.length

/-- Population variance (np.var): mean squared deviation from the mean. -/
def qvar (l : List ℚ) : ℚ := qmean (l.map (fun x => (x - qmean l) ^ 2))

/-- Maximum of a list (np.max); 0 for the empty list. -/
def qmax (l : List ℚ) : ℚ := l.foldl max (l.headD 0)

/-- Minimum of a list (np.min); 0 for the empty list. -/
def qmin (l : List ℚ) : ℚ := l.foldl min (l.headD 0)

/-- The additive epsilon `1e-8` used to avoid division by zero. -/
def epsQ : ℚ := 1 / 100000000

/-- Mean magnitude of one time frame restricted to the bins selected by a
frequency predicate (np.mean over the masked rows of one STFT column). -/
def bandMean (freqs : List ℚ) (frame : List ℚ) (inBand : ℚ → Bool) : ℚ :=
  qmean (((freqs.zip frame).filter (fun p => inBand p.1)).map Prod.snd)

/-- Length in seconds of one analysis frame:
`len(audio_data) / sample_rate / len(t)`. -/
def frameDuration (clip : Clip) : ℚ :=
  (clip.audioLen : ℚ) / (clip.sampleRate : ℚ) / (clip.stft.frames.length : ℚ)

/-- The run-length scan shared by the frequency checks: walk the frame flags,
adding `frameDur` to the current run on a set flag and resetting on a clear
flag, tracking the longest run seen (the for-loops over `dominant_frames`). -/
def maxContinuousDuration (flags : List Bool) (frameDur : ℚ) : ℚ :=
  (flags.foldl
    (fun (acc : ℚ × ℚ) d =>
      if d then
        let c := acc.2 + frameDur
        (max acc.1 c, c)
      else (acc.1, 0))
    (0, 0)).1

/-- AudioQualityFilters.check_duration: fails when the clip is shorter than
`expectedDuration - tolerance`, scoring `actual/expected`; passes with score
1.0 otherwise.  Defaults in the source: expected 12.0s, tolerance 1.0s. -/
def check_duration (audioLen : ℕ) (sampleRate : ℕ)
    (expectedDuration tolerance : ℚ) : CheckResult :=
  let actualDuration : ℚ := (audioLen : ℚ) / (sampleRate : ℚ)
  let minDuration := expectedDuration - tolerance
  if actualDuration < minDuration then
    ⟨false, actualDuration / expectedDuration⟩
  else
    ⟨true, 1⟩

/-- The per-frame high-frequency dominance flags of
AudioQualityFilters.check_high_frequency_noise: a frame is dominant when the
mean magnitude over the bins at or above `freqThreshold`, divided by the mean
magnitude over all bins plus 1e-8, exceeds 0.5. -/
def hfDominantFrames (clip : Clip) (freqThreshold : ℚ) : List Bool :=
  clip.stft.frames.map (fun frame =>
    decide (bandMean clip.stft.freqs frame (fun fr => freqThreshold ≤ fr) /
      (qmean frame + epsQ) > 1 / 2))

/-- Longest continuous high-frequency-dominant span, in seconds. -/
def hfMaxRun (clip : Clip) (freqThreshold : ℚ) : ℚ :=
  maxContinuousDuration (hfDominantFrames clip freqThreshold) (frameDuration clip)

/-- AudioQualityFilters.check_high_frequency_noise: passes trivially when no
bin reaches `freqThreshold`; otherwise fails when the longest continuous
dominant span exceeds `durationThreshold`, scoring `1 - span/threshold`
(unclamped).  Defaults in the source: 8000Hz, 3.0s. -/
def check_high_frequency_noise (clip : Clip)
    (freqThreshold durationThreshold : ℚ) : CheckResult :=
  if (clip.stft.freqs.filter (fun fr => freqThreshold ≤ fr)).isEmpty then
    ⟨true, 1⟩
  else if hfMaxRun clip freqThreshold > durationThreshold then
    ⟨false, 1 - hfMaxRun clip freqThreshold / durationThreshold⟩
  else
    ⟨true, 1⟩

/-- Low-band dominance flags of check_extreme_frequencies: bins at or below
`lowFreqThreshold`, dominance when the energy share exceeds 0.6; all-false when
no bin is that low (np.zeros(len(t))). -/
def efLowDominantFrames (clip : Clip) (lowFreqThreshold : ℚ) : List Bool :=
  if (clip.stft.freqs.filter (fun fr => fr ≤ lowFreqThreshold)).isEmpty then
    List.replicate clip.stft.frames.length false
  else
    clip.stft.frames.map (fun frame =>
      decide (bandMean clip.stft.freqs frame (fun fr => fr ≤ lowFreqThreshold) /
        (qmean frame + epsQ) > 3 / 5))

/-- High-band dominance flags of check_extreme_frequencies: bins at or above
`highFreqThreshold`, dominance when the energy share exceeds 0.4. -/
def efHighDominantFrames (clip : Clip) (highFreqThreshold : ℚ) : List Bool :=
  if (clip.stft.freqs.filter (fun fr => highFreqThreshold ≤ fr)).isEmpty then
    List.replicate clip.stft.frames.length false
  else
    clip.stft.frames.map (fun frame =>
      decide (bandMean clip.stft.freqs frame (fun fr => highFreqThreshold ≤ fr) /
        (qmean frame + epsQ) > 2 / 5))

/-- AudioQualityFilters.check_extreme_frequencies: measures the longest
continuous low-band and high-band dominant spans independently; fails (low
band reported first) when either exceeds `durationThreshold`, scoring
`1 - span/threshold`.  Defaults in the source: 80Hz, 15000Hz, 3.0s. -/
def check_extreme_frequencies (clip : Clip)
    (lowFreqThreshold highFreqThreshold durationThreshold : ℚ) : CheckResult :=
  let fd := frameDuration clip
  let maxLow := maxContinuousDuration (efLowDominantFrames clip lowFreqThreshold) fd
  let maxHigh := maxContinuousDuration (efHighDominantFrames clip highFreqThreshold) fd
  if maxLow > durationThreshold then
    ⟨false, 1 - maxLow / durationThreshold⟩
  else if maxHigh > durationThreshold then
    ⟨false, 1 - maxHigh / durationThreshold⟩
  else
    ⟨true, 1⟩

/-- Result of AudioQualityFilters.run_all_checks. -/
structure BasicStageResult where
  duration : CheckResult
  high_frequency : CheckResult
  extreme_frequencies : CheckResult
  overall_passed : Bool
deriving DecidableEq, Repr

/-- AudioQualityFilters.run_all_checks: runs only the duration,
high-frequency-noise and extreme-frequency checks (with their source
defaults), and takes the conjunction of their `passed` flags. -/
def run_all_checks (clip : Clip) (expectedDuration : ℚ) : BasicStageResult :=
  let durationResult := check_duration clip.audioLen clip.sampleRate expectedDuration 1
  let highFreqResult := check_high_frequency_noise clip 8000 3
  let extremeFreqResult := check_extreme_frequencies clip 80 15000 3
  { duration := durationResult
    high_frequency := highFreqResult
    extreme_frequencies := extremeFreqResult
    overall_passed := durationResult.passed && highFreqResult.passed && extremeFreqResult.passed }

/-- Model of librosa.beat.beat_track plus the numpy reductions of
check_rhythm_consistency: the beat positions (in samples), and the standard
deviation of the inter-beat intervals (np.std involves a square root, so it is
supplied as data rather than recomputed over ℚ). -/
structure RhythmAnalysis where
  beats : List ℚ
  stdInterval : ℚ
deriving Repr

/-- MusicalCompletenessFilters.check_rhythm_consistency on the success path:
needs at least 3 beats; the coefficient of variation of the inter-beat
intervals (infinite when the mean interval is 0, making the score 0) is turned
into `max 0 (1 - cov/tempoTolerance)`; passes when that score exceeds 0.6.
`none` models the library raising, which the source answers with an optimistic
default pass of score 0.7. -/
def check_rhythm_consistency (sampleRate : ℚ) (tempoTolerance : ℚ)
    (analysis : Option RhythmAnalysis) : CheckResult :=
  match analysis with
  | none => ⟨true, 7 / 10⟩
  | some a =>
    if a.beats.length < 3 then ⟨false, 0⟩
    else
      let beatIntervals := (a.beats.zip a.beats.tail).map (fun p => (p.2 - p.1) / sampleRate)
      if beatIntervals.length = 0 then ⟨false, 0⟩
      else
        let meanInterval := qmean beatIntervals
        if meanInterval = 0 then ⟨false, 0⟩
        else
          let cov := a.stdInterval / meanInterval
          let consistencyScore := max 0 (1 - cov / tempoTolerance)
          ⟨decide (consistencyScore > 3 / 5), consistencyScore⟩

/-- One time frame of the librosa.piptrack output: the pitch candidates and
their magnitudes for that frame (one column of each matrix). -/
structure PitchFrame where
  pitches : List ℚ
  magnitudes : List ℚ
deriving Repr

/-- Index of the first maximal element (np.argmax); 0 for the empty list. -/
def argmaxIdx (l : List ℚ) : ℕ :=
  (l.foldl
    (fun (acc : ℕ × ℕ × ℚ) x =>
      let (best, i, bestVal) := acc
      if bestVal < x then (i, i + 1, x) else (best, i + 1, bestVal))
    (0, 0, l.headD 0)).1

/-- The per-frame strongest pitch extraction loop of check_melody_existence:
for each frame take the pitch at the magnitude argmax, keeping only strictly
positive pitches. -/
def dominantPitches (frames : List PitchFrame) : List ℚ :=
  (frames.map (fun fr => fr.pitches.getD (argmaxIdx fr.magnitudes) 0)).filter
    (fun p => decide (p > 0))

/-- MusicalCompletenessFilters.check_melody_existence on the success path:
needs at least 10 valid pitch points; combines a variance score
`min 1 (var/threshold^2)` and a range score `min 1 (range/(2*threshold))` into
their mean; passes when that exceeds 0.3.  `none` models the library raising,
which the source answers with a failing result of score 0. -/
def check_melody_existence (pitchThreshold : ℚ)
    (analysis : Option (List PitchFrame)) : CheckResult :=
  match analysis with
  | none => ⟨false, 0⟩
  | some frames =>
    let pitchArray := dominantPitches frames
    if pitchArray.length < 10 then ⟨false, 0⟩
    else
      let pitchVariance := qvar pitchArray
      let pitchRange := qmax pitchArray - qmin pitchArray
      let varianceScore := min 1 (pitchVariance / pitchThreshold ^ 2)
      let rangeScore := min 1 (pitchRange / (pitchThreshold * 2))
      let melodyScore := (varianceScore + rangeScore) / 2
      ⟨decide (melodyScore > 3 / 10), melodyScore⟩

/-- Model of librosa.effects.hpss: the separated harmonic and percussive
component signals. -/
structure HarmonicAnalysis where
  harmonicComp : List ℚ
  percussiveComp : List ℚ
deriving Repr

/-- Mean squared sample energy of a component (np.mean(x ** 2)). -/
def componentEnergy (samples : List ℚ) : ℚ := qmean (samples.map (fun x => x ^ 2))

/-- MusicalCompletenessFilters.check_harmonic_balance on the success path:
fails with score 0 when the combined energy is zero; otherwise scores the
harmonic energy share in tiers (at least 0.7 scores 1.0, at least 0.5 scores
0.8, below that 0.3) and passes when the tier score exceeds `balanceThreshold`
and the weaker component still holds more than 1% of the energy.  `none`
models the library raising, answered with a failing result of score 0. -/
def check_harmonic_balance (balanceThreshold : ℚ)
    (analysis : Option HarmonicAnalysis) : CheckResult :=
  match analysis with
  | none => ⟨false, 0⟩
  | some a =>
    let harmonicEnergy := componentEnergy a.harmonicComp
    let percussiveEnergy := componentEnergy a.percussiveComp
    let totalEnergy := harmonicEnergy + percussiveEnergy
    if totalEnergy = 0 then ⟨false, 0⟩
    else
      let harmonicShare := harmonicEnergy / totalEnergy
      let percussiveShare := percussiveEnergy / totalEnergy
      let balanceScore : ℚ :=
        if harmonicShare ≥ 7 / 10 then 1
        else if harmonicShare ≥ 1 / 2 then 4 / 5
        else 3 / 10
      let minComponentShare := min harmonicShare percussiveShare
      ⟨decide (balanceScore > balanceThreshold) && decide (minComponentShare > 1 / 100),
        balanceScore⟩

/-- Model of the three feature variations of check_musical_flow: spectral
centroid, RMS energy and spectral rolloff each reduced to
`np.std(feature) / (np.mean(feature) + 1e-8)` (std involves a square root, so
the three variation values are supplied as data). -/
structure FlowAnalysis where
  centroidVariation : ℚ
  energyVariation : ℚ
  rolloffVariation : ℚ
deriving Repr

/-- The per-feature mapping of check_musical_flow: 1.0 inside [0.1, 1.0],
`v/0.1` below (too monotonous), `max 0 (2 - v)` above (too unstable). -/
def flowScoreOfVariation (v : ℚ) : ℚ :=
  if 1 / 10 ≤ v ∧ v ≤ 1 then 1
  else if v < 1 / 10 then v / (1 / 10)
  else max 0 (2 - v)

/-- MusicalCompletenessFilters.check_musical_flow on the success path: the
mean of the three mapped variation scores; passes when it exceeds
`flowThreshold`.  `none` models the library raising, answered with a failing
result of score 0. -/
def check_musical_flow (flowThreshold : ℚ)
    (analysis : Option FlowAnalysis) : CheckResult :=
  match analysis with
  | none => ⟨false, 0⟩
  | some a =>
    let flowScore := qmean [flowScoreOfVariation a.centroidVariation,
      flowScoreOfVariation a.energyVariation,
      flowScoreOfVariation a.rolloffVariation]
    ⟨decide (flowScore > flowThreshold), flowScore⟩

/-- What the external libraries produced for the four musical checks of one
clip (`none` for a check models its library call raising an exception). -/
structure MusicalAnalysis where
  rhythm : Option RhythmAnalysis
  melody : Option (List PitchFrame)
  harmonic : Option HarmonicAnalysis
  flow : Option FlowAnalysis
deriving Repr

/-- Result of MusicalCompletenessFilters.run_musical_checks. -/
structure MusicalStageResult where
  rhythm : CheckResult
  melody : CheckResult
  harmonic : CheckResult
  flow : CheckResult
  passed : Bool
  passed_count : ℕ
  avg_score : ℚ
deriving DecidableEq, Repr

/-- MusicalCompletenessFilters.run_musical_checks: runs the four checks with
their source-default parameters (tempo tolerance 0.15, pitch threshold 100,
balance threshold 0.1, flow threshold 0.3), counts the passing ones, passes
the group when at least 2 of 4 pass, and averages all four scores. -/
def run_musical_checks (sampleRate : ℚ) (a : MusicalAnalysis) : MusicalStageResult :=
  let rhythmResult := check_rhythm_consistency sampleRate (3 / 20) a.rhythm
  let melodyResult := check_melody_existence 100 a.melody
  let harmonicResult := check_harmonic_balance (1 / 10) a.harmonic
  let flowResult := check_musical_flow (3 / 10) a.flow
  let results := [rhythmResult, melodyResult, harmonicResult, flowResult]
  let passedCount := (results.filter (fun r => r.passed)).length
  { rhythm := rhythmResult
    melody := melodyResult
    harmonic := harmonicResult
    flow := flowResult
    passed := decide (passedCount ≥ 2)
    passed_count := passedCount
    avg_score := qmean (results.map (fun r => r.score)) }

/-- The prompt components produced by
SemanticMatchingFilters.parse_prompt_components (regex/keyword extraction over
the prompt; an empty string means the component was not found — Python
truthiness).  The extraction itself is text processing over fixed keyword
lists and is modelled as an input. -/
structure PromptComponents where
  genre : String
  emotion : String
  instrument : String
  full_prompt : String
deriving DecidableEq, Repr

/-- The external environment of check_prompt_alignment: whether the CLAP model
loaded (`self.clap is None` otherwise), whether `_save_temp_audio_file`
produced a path (its failure raises inside the try block), and the raw CLAP
similarity of the clip against a text (`none` models the CLAP call raising,
which `_calculate_similarity` catches). -/
structure SemanticEnv where
  clapAvailable : Bool
  tempSaveOk : Bool
  rawSim : String → Option ℚ

/-- The four component similarity scores. -/
structure SemanticScores where
  full_prompt : ℚ
  genre : ℚ
  emotion : ℚ
  instrument : ℚ
deriving DecidableEq, Repr

/-- Result of SemanticMatchingFilters.check_prompt_alignment. -/
structure SemanticResult where
  passed : Bool
  weighted_score : ℚ
  scores : SemanticScores
deriving DecidableEq, Repr

/-- SemanticMatchingFilters._calculate_similarity: 0.15 for a blank text
prompt (`not text_prompt.strip()`, i.e. every character is whitespace), 0.15
when the CLAP call raises, otherwise the similarity clipped to [0, 1]. -/
def calculate_similarity (env : SemanticEnv) (text : String) : ℚ :=
  if text.data.all (fun c => c.isWhitespace) then 3 / 20
  else
    match env.rawSim text with
    | none => 3 / 20
    | some s => max 0 (min 1 s)

/-- The four component similarities computed on the normal path of
check_prompt_alignment: the full prompt always, and per found component a
synthetic phrase; a missing component defaults to 0.15. -/
def semanticScoresOf (env : SemanticEnv) (comp : PromptComponents) : SemanticScores :=
  { full_prompt := calculate_similarity env comp.full_prompt
    genre :=
      if comp.genre = "" then 3 / 20
      else calculate_similarity env ("A " ++ comp.genre ++ " music piece")
    emotion :=
      if comp.emotion = "" then 3 / 20
      else calculate_similarity env (comp.emotion ++ " music")
    instrument :=
      if comp.instrument = "" then 3 / 20
      else calculate_similarity env (comp.instrument ++ " music") }

/-- SemanticMatchingFilters.check_prompt_alignment: without CLAP, a fixed
optimistic pass with weighted score 0.25; when the temporary audio file cannot
be saved the raised error is caught and answered with a lenient default pass
of 0.20; otherwise the weighted combination
`0.4*full + 0.3*emotion + 0.2*genre + 0.1*instrument`, passing at 0.15. -/
def check_prompt_alignment (env : SemanticEnv) (comp : PromptComponents) : SemanticResult :=
  if !env.clapAvailable then
    ⟨true, 1 / 4, ⟨1 / 4, 1 / 4, 1 / 4, 1 / 4⟩⟩
  else if !env.tempSaveOk then
    ⟨true, 1 / 5, ⟨1 / 5, 1 / 5, 1 / 5, 1 / 5⟩⟩
  else
    let scores := semanticScoresOf env comp
    let weightedScore := scores.full_prompt * (2 / 5) + scores.emotion * (3 / 10) +
      scores.genre * (1 / 5) + scores.instrument * (1 / 10)
    ⟨decide (weightedScore ≥ 3 / 20), weightedScore, scores⟩

/-- The three status tiers of the enhanced pipeline. -/
inductive EvalStatus
  | EXCELLENT
  | GOOD
  | RETRY
deriving DecidableEq, Repr

/-- Result of EnhancedQualityPipeline.evaluate_single_music (the timing fields
and `reason` string are omitted). -/
structure EvaluationResult where
  status : EvalStatus
  total_score : ℚ
  stage_completed : ℕ
  basic_result : Option BasicStageResult
  musical_result : Option MusicalStageResult
  semantic_result : Option SemanticResult
deriving DecidableEq, Repr

/-- EnhancedQualityPipeline._calculate_total_score: basic 20% (1 when the
basic stage passed, else 0), musical 30% (the group average when the group
passed, else 0), semantic 40% (the weighted score), plus a 0.1 bonus when all
three stages passed, clipped to [0, 1]. -/
def calculate_total_score (basic : BasicStageResult) (musical : MusicalStageResult)
    (semantic : SemanticResult) : ℚ :=
  let basicScore : ℚ := if basic.overall_passed then 1 else 0
  let musicalScore : ℚ := if musical.passed then musical.avg_score else 0
  let semanticScore := semantic.weighted_score
  let bonusScore : ℚ :=
    if basic.overall_passed && musical.passed && semantic.passed then 1 / 10 else 0
  let totalScore := basicScore * (1 / 5) + musicalScore * (3 / 10) +
    semanticScore * (2 / 5) + bonusScore
  max 0 (min 1 totalScore)

/-- EnhancedQualityPipeline._determine_status: RETRY whenever the basic stage
failed; otherwise EXCELLENT at total score 0.7, GOOD at 0.5, RETRY below. -/
def determine_status (totalScore : ℚ) (basic : BasicStageResult) : EvalStatus :=
  if !basic.overall_passed then EvalStatus.RETRY
  else if totalScore ≥ 7 / 10 then EvalStatus.EXCELLENT
  else if totalScore ≥ 1 / 2 then EvalStatus.GOOD
  else EvalStatus.RETRY

/-- EnhancedQualityPipeline.evaluate_single_music: stage 1 runs the basic
checks (expected duration 12.0); on failure evaluation stops at stage 1 with
RETRY and total score 0, leaving the musical and semantic results unset.
Otherwise stages 2 and 3 run and the composite score and status tier are
computed. -/
def evaluate_single_music (clip : Clip) (ma : MusicalAnalysis)
    (env : SemanticEnv) (comp : PromptComponents) : EvaluationResult :=
  let basicResult := run_all_checks clip 12
  if !basicResult.overall_passed then
    { status := EvalStatus.RETRY
      total_score := 0
      stage_completed := 1
      basic_result := some basicResult
      musical_result := none
      semantic_result := none }
  else
    let musicalResult := run_musical_checks (clip.sampleRate : ℚ) ma
    let semanticResult := check_prompt_alignment env comp
    let totalScore := calculate_total_score basicResult musicalResult semanticResult
    { status := determine_status totalScore basicResult
      total_score := totalScore
      stage_completed := 3
      basic_result := some basicResult
      musical_result := some musicalResult
      semantic_result := some semanticResult }

/-- One iteration outcome of
EnhancedAdaptiveMusicPipeline.process_prompt_adaptive: the generator failed,
the save step failed, or a full evaluation was produced with some status. -/
inductive AttemptOutcome
  | genFail
  | saveFail
  | evaluated (status : EvalStatus)
deriving DecidableEq, Repr

/-- The loop exit test of the enhanced controller:
an evaluated status of EXCELLENT or GOOD; generation failures and
save failures `continue` the loop. -/
def attemptSucceeds : AttemptOutcome → Bool
  | .evaluated .EXCELLENT => true
  | .evaluated .GOOD => true
  | _ => false

/-- One iteration outcome of the basic-only controller
AdaptiveMusicQualityPipeline.process_prompt_adaptive: generation failed, or
the basic quality checks ran with some overall verdict. -/
inductive BasicAttemptOutcome
  | genFail
  | checked (overallPassed : Bool)
deriving DecidableEq, Repr

/-- The loop exit test of the basic-only controller:
a passing overall basic verdict. -/
def basicAttemptSucceeds : BasicAttemptOutcome → Bool
  | .checked passed => passed
  | .genFail => false

/-- The unbounded `while True` retry loop, shallowly embedded with explicit
fuel: each iteration increments the attempt counter, consumes the next
outcome, and exits with the counter value at the first outcome the exit test
accepts; `none` means the loop is still running after `fuel` iterations. -/
def adaptiveLoopAux {α : Type} (success : α → Bool) (outcomes : ℕ → α) :
    ℕ → ℕ → Option ℕ
  | 0, _ => none
  | fuel + 1, attemptCount =>
    let c := attemptCount + 1
    if success (outcomes (c - 1)) then some c
    else adaptiveLoopAux success outcomes fuel c

/-- EnhancedAdaptiveMusicPipeline.process_prompt_adaptive, observed through
its attempt outcomes: the attempt counter starts at 0 and is incremented to 1
on the first iteration. -/
def enhanced_process_prompt_adaptive (outcomes : ℕ → AttemptOutcome) (fuel : ℕ) : Option ℕ :=
  adaptiveLoopAux attemptSucceeds outcomes fuel 0

/-- AdaptiveMusicQualityPipeline.process_prompt_adaptive (basic-only
configuration), observed through its attempt outcomes. -/
def basic_process_prompt_adaptive (outcomes : ℕ → BasicAttemptOutcome) (fuel : ℕ) : Option ℕ :=
  adaptiveLoopAux basicAttemptSucceeds outcomes fuel 0

/-- Modelled from the spec: the two-stage composite-score formula of its
aggregator section (basicScore in 0 or 1; musicalScore is the group average
when the musical group passed, otherwise half of it;
totalScore = clamp(0.3·basicScore + 0.7·musicalScore, 0, 1)).  It is stated to
compare against the score the source aggregator actually computes. -/
def spec_two_stage_total_score (basicPassed : Bool) (musical : MusicalStageResult) : ℚ :=
  let basicScore : ℚ := if basicPassed then 1 else 0
  let musicalScore : ℚ :=
    if musical.passed then musical.avg_score else musical.avg_score / 2
  max 0 (min 1 (basicScore * (3 / 10) + musicalScore * (7 / 10)))

/-- A 12-second clip (12 samples at 1Hz, one silent spectral frame) that
passes every basic check. -/
def sampleClip : Clip := ⟨12, 1, ⟨[0], [[0]]⟩⟩

/-- A 1-second clip that fails the duration check. -/
def shortClip : Clip := ⟨1, 1, ⟨[0], [[0]]⟩⟩

/-- A 12-second clip whose 8000Hz bin dominates for 4 consecutive 1-second
frames out of 12. -/
def hfNoiseClip : Clip :=
  ⟨12, 1, ⟨[8000], [[1], [1], [1], [1], [0], [0], [0], [0], [0], [0], [0], [0]]⟩⟩

/-- A musical analysis where the rhythm library raised (optimistic default
pass), the melody track is empty (fail), the harmonic split is balanced
(pass), and all flow variations are moderate (pass): 3 of 4 pass with
average score 5/8. -/
def sampleMA : MusicalAnalysis := ⟨none, some [], some ⟨[1], [1]⟩, some ⟨1 / 2, 1 / 2, 1 / 2⟩⟩

/-- A semantic environment where the CLAP model failed to load. -/
def noClapEnv : SemanticEnv := ⟨false, true, fun _ => none⟩

/-- A semantic environment with a working oracle answering 0.5 for every
text. -/
def simEnv : SemanticEnv := ⟨true, true, fun _ => some (1 / 2)⟩

/-- Prompt components where nothing was extracted from an empty prompt. -/
def emptyComp : PromptComponents := ⟨"", "", "", ""⟩

/-- An outcome stream for the retry controller: a generation failure, then a
save failure, then a RETRY evaluation, then GOOD evaluations. -/
def c3Outcomes : ℕ → AttemptOutcome := fun i =>
  if i = 0 then AttemptOutcome.genFail
  else if i = 1 then AttemptOutcome.saveFail
  else if i = 2 then AttemptOutcome.evaluated EvalStatus.RETRY
  else AttemptOutcome.evaluated EvalStatus.GOOD

/-- The fueled retry loop is still running after `fuel` iterations when none
of the first `fuel` outcomes passes the exit test. -/
theorem adaptiveLoopAux_eq_none {α : Type} (success : α → Bool) (outcomes : ℕ → α)
    (fuel count : ℕ) (h : ∀ j, j < fuel → success (outcomes (count + j)) = false) :
    adaptiveLoopAux success outcomes fuel count = none := by
  induction fuel generalizing count with
  | zero => rfl
  | succ n ih =>
    have h0 : success (outcomes count) = false := by simpa using h 0 n.succ_pos
    simp only [adaptiveLoopAux, Nat.add_sub_cancel, h0, Bool.false_eq_true, if_false]
    exact ih (count + 1) (fun j hj => by
      have hs := h (j + 1) (Nat.succ_lt_succ hj)
      rw [show count + 1 + j = count + (j + 1) by omega]
      exact hs)

/-- The fueled retry loop exits with counter value `count + k + 1` at the
first passing outcome, `k` steps ahead, provided the fuel reaches it. -/
theorem adaptiveLoopAux_eq_some {α : Type} (success : α → Bool) (outcomes : ℕ → α)
    (k : ℕ) : ∀ (fuel count : ℕ),
    (∀ j, j < k → success (outcomes (count + j)) = false) →
    success (outcomes (count + k)) = true → k < fuel →
    adaptiveLoopAux success outcomes fuel count = some (count + k + 1) := by
  induction k with
  | zero =>
    intro fuel count _ hsucc hk
    obtain ⟨f, rfl⟩ : ∃ f, fuel = f + 1 := ⟨fuel - 1, by omega⟩
    have h0 : success (outcomes count) = true := by simpa using hsucc
    simp [adaptiveLoopAux, Nat.add_sub_cancel, h0]
  | succ m ih =>
    intro fuel count hfail hsucc hk
    obtain ⟨f, rfl⟩ : ∃ f, fuel = f + 1 := ⟨fuel - 1, by omega⟩
    have h0 : success (outcomes count) = false := by simpa using hfail 0 m.succ_pos
    simp only [adaptiveLoopAux, Nat.add_sub_cancel, h0, Bool.false_eq_true, if_false]
    have hrec := ih f (count + 1)
      (fun j hj => by
        have hs := hfail (j + 1) (Nat.succ_lt_succ hj)
        rw [show count + 1 + j = count + (j + 1) by omega]
        exact hs)
      (by rw [show count + 1 + m = count + (m + 1) by omega]; exact hsucc)
      (by omega)
    rw [hrec, show count + 1 + m + 1 = count + (m + 1) + 1 by omega]

/-- C3: the adaptive retry loop exits exactly at the first attempt whose
evaluation status is EXCELLENT or GOOD (basic-only configuration: whose
overallPassed is true); generation failures, save failures and RETRY
evaluations each lead to another iteration; the attempt counter starts at 1,
increments every iteration, and the loop has no maximum-attempt cap (with any
fuel not reaching the first success it is still running). -/
theorem C3_retry_loop :
    (∀ (o : ℕ → AttemptOutcome) (k : ℕ),
        (∀ i, i < k → attemptSucceeds (o i) = false) → attemptSucceeds (o k) = true →
          (∀ fuel, k < fuel → enhanced_process_prompt_adaptive o fuel = some (k + 1))
          ∧ (∀ fuel, fuel ≤ k → enhanced_process_prompt_adaptive o fuel = none))
    ∧ (∀ (o : ℕ → BasicAttemptOutcome) (k : ℕ),
        (∀ i, i < k → basicAttemptSucceeds (o i) = false) →
          basicAttemptSucceeds (o k) = true →
          (∀ fuel, k < fuel → basic_process_prompt_adaptive o fuel = some (k + 1))
          ∧ (∀ fuel, fuel ≤ k → basic_process_prompt_adaptive o fuel = none))
    ∧ (∀ s, attemptSucceeds (AttemptOutcome.evaluated s) = true ↔
        s = EvalStatus.EXCELLENT ∨ s = EvalStatus.GOOD)
    ∧ attemptSucceeds AttemptOutcome.genFail = false
    ∧ attemptSucceeds AttemptOutcome.saveFail = false
    ∧ (∀ b, basicAttemptSucceeds (BasicAttemptOutcome.checked b) = b)
    ∧ basicAttemptSucceeds BasicAttemptOutcome.genFail = false := by
  refine ⟨?_, ?_, ?_, rfl, rfl, fun b => rfl, rfl⟩
  · intro o k hfail hsucc
    constructor
    · intro fuel hk
      have h := adaptiveLoopAux_eq_some attemptSucceeds o k fuel 0
        (fun j hj => by simpa using hfail j hj) (by simpa using hsucc) hk
      simpa [enhanced_process_prompt_adaptive] using h
    · intro fuel hfuel
      exact adaptiveLoopAux_eq_none attemptSucceeds o fuel 0
        (fun j hj => by simpa using hfail j (lt_of_lt_of_le hj hfuel))
  · intro o k hfail hsucc
    constructor
    · intro fuel hk
      have h := adaptiveLoopAux_eq_some basicAttemptSucceeds o k fuel 0
        (fun j hj => by simpa using hfail j hj) (by simpa using hsucc) hk
      simpa [basic_process_prompt_adaptive] using h
    · intro fuel hfuel
      exact adaptiveLoopAux_eq_none basicAttemptSucceeds o fuel 0
        (fun j hj => by simpa using hfail j (lt_of_lt_of_le hj hfuel))
  · intro s
    cases s <;> simp [attemptSucceeds]

/-- Witness for C3 at a concrete outcome stream: a generation failure, a save
failure and a RETRY evaluation are each followed by another iteration, and the
loop exits at the fourth attempt (the first GOOD) while fuel 3 leaves it still
running. -/
theorem C3_retry_loop_witness :
    enhanced_process_prompt_adaptive c3Outcomes 10 = some 4
    ∧ enhanced_process_prompt_adaptive c3Outcomes 3 = none := by
  have h := C3_retry_loop.1 c3Outcomes 3
    (by intro i hi; interval_cases i <;> decide) (by decide)
  exact ⟨h.1 10 (by omega), h.2 3 (by omega)⟩

/-- C2: whenever the basic stage fails, evaluation stops at stage 1 with
status RETRY, total score 0, and no musical or semantic result. -/
theorem C2_short_circuit (clip : Clip) (ma : MusicalAnalysis) (env : SemanticEnv)
    (comp : PromptComponents) (h : (run_all_checks clip 12).overall_passed = false) :
    evaluate_single_music clip ma env comp =
      { status := EvalStatus.RETRY
        total_score := 0
        stage_completed := 1
        basic_result := some (run_all_checks clip 12)
        musical_result := none
        semantic_result := none } := by
  simp [evaluate_single_music, h]

/-- Witness for C2: the too-short clip fails the basic stage and the full
evaluation short-circuits. -/
theorem C2_short_circuit_witness :
    (run_all_checks shortClip 12).overall_passed = false
    ∧ evaluate_single_music shortClip sampleMA noClapEnv emptyComp =
      { status := EvalStatus.RETRY
        total_score := 0
        stage_completed := 1
        basic_result := some (run_all_checks shortClip 12)
        musical_result := none
        semantic_result := none } := by
  have hfail : (run_all_checks shortClip 12).overall_passed = false := by
    norm_num [run_all_checks, check_duration, check_high_frequency_noise, hfMaxRun,
      hfDominantFrames, check_extreme_frequencies, efLowDominantFrames, efHighDominantFrames,
      bandMean, qmean, maxContinuousDuration, frameDuration, epsQ, shortClip]
  exact ⟨hfail, C2_short_circuit shortClip sampleMA noClapEnv emptyComp hfail⟩

/-- C5 counterexample: a clip of exactly 11.0 seconds with expected duration
12.0 and tolerance 1.0 does pass the duration check, but its score is 1.0,
not the claimed 11/12 ≈ 0.9167 (which is the failure-branch score). -/
theorem C5_counterexample :
    check_duration 11000 1000 12 1 = ⟨true, 1⟩
    ∧ (check_duration 11000 1000 12 1).score ≠ 11 / 12 := by
  constructor
  · norm_num [check_duration]
  · norm_num [check_duration]

/-- C5 amended: a clip whose duration is exactly `expected - tolerance` passes
the duration check, with score 1.0 (the pass-branch score), not
duration/expected. -/
theorem C5_amended (len sr : ℕ) (expected tolerance : ℚ)
    (h : (len : ℚ) / (sr : ℚ) = expected - tolerance) :
    check_duration len sr expected tolerance = ⟨true, 1⟩ := by
  simp [check_duration, h]

/-- Witness for the amended C5 at the concrete numbers of the claim: an 11.0-second
clip against expected 12.0, tolerance 1.0. -/
theorem C5_amended_witness :
    (11000 : ℚ) / (1000 : ℚ) = 12 - 1
    ∧ check_duration 11000 1000 12 1 = ⟨true, 1⟩ :=
  ⟨by norm_num, C5_amended 11000 1000 12 1 (by norm_num)⟩

/-- C8: an internal exception (the `none` analysis) makes the
rhythm-consistency check pass with score 0.7, while the same situation makes
the melody, harmonic-balance and musical-flow checks fail with score 0. -/
theorem C8_error_defaults (sampleRate tempoTolerance pitchThreshold
    balanceThreshold flowThreshold : ℚ) :
    check_rhythm_consistency sampleRate tempoTolerance none = ⟨true, 7 / 10⟩
    ∧ check_melody_existence pitchThreshold none = ⟨false, 0⟩
    ∧ check_harmonic_balance balanceThreshold none = ⟨false, 0⟩
    ∧ check_musical_flow flowThreshold none = ⟨false, 0⟩ :=
  ⟨rfl, rfl, rfl, rfl⟩

/-- Witness for C8 at the source-default parameters. -/
theorem C8_error_defaults_witness :
    check_rhythm_consistency 22050 (3 / 20) none = ⟨true, 7 / 10⟩
    ∧ check_melody_existence 100 none = ⟨false, 0⟩
    ∧ check_harmonic_balance (1 / 10) none = ⟨false, 0⟩
    ∧ check_musical_flow (3 / 10) none = ⟨false, 0⟩ :=
  C8_error_defaults 22050 (3 / 20) 100 (1 / 10) (3 / 10)

/-- C9: the overall verdict of the basic aggregate is exactly the conjunction of
the duration, high-frequency-noise and extreme-frequency checks; the
volume-cutoff, frequency-drop and monotony checks do not enter it. -/
theorem C9_basic_aggregate (clip : Clip) (expectedDuration : ℚ) :
    (run_all_checks clip expectedDuration).overall_passed =
      ((check_duration clip.audioLen clip.sampleRate expectedDuration 1).passed
        && (check_high_frequency_noise clip 8000 3).passed
        && (check_extreme_frequencies clip 80 15000 3).passed) := rfl

/-- Witness for C9 at a concrete clip. -/
theorem C9_basic_aggregate_witness :
    (run_all_checks sampleClip 12).overall_passed =
      ((check_duration sampleClip.audioLen sampleClip.sampleRate 12 1).passed
        && (check_high_frequency_noise sampleClip 8000 3).passed
        && (check_extreme_frequencies sampleClip 80 15000 3).passed) :=
  C9_basic_aggregate sampleClip 12

/-- C6: whenever the high-frequency-noise check fails, its score is exactly
`1 - maxRunSeconds / durationThreshold`, with no clamping. -/
theorem C6_hf_fail_score (clip : Clip) (freqThreshold durationThreshold : ℚ)
    (h : (check_high_frequency_noise clip freqThreshold durationThreshold).passed = false) :
    (check_high_frequency_noise clip freqThreshold durationThreshold).score =
      1 - hfMaxRun clip freqThreshold / durationThreshold := by
  unfold check_high_frequency_noise at h ⊢
  split_ifs at h ⊢
  rfl

/-- Witness for C6: a clip whose high-frequency content dominates for 4.0
consecutive seconds against the default 3.0-second threshold fails with the
negative score 1 - 4/3 = -1/3 ≈ -0.333. -/
theorem C6_hf_fail_score_witness :
    (check_high_frequency_noise hfNoiseClip 8000 3).passed = false
    ∧ hfMaxRun hfNoiseClip 8000 = 4
    ∧ (check_high_frequency_noise hfNoiseClip 8000 3).score = -(1 / 3)
    ∧ (check_high_frequency_noise hfNoiseClip 8000 3).score < 0 := by
  have hp : (check_high_frequency_noise hfNoiseClip 8000 3).passed = false := by
    norm_num [check_high_frequency_noise, hfMaxRun, hfDominantFrames, bandMean, qmean,
      maxContinuousDuration, frameDuration, epsQ, hfNoiseClip]
  have hr : hfMaxRun hfNoiseClip 8000 = 4 := by
    norm_num [hfMaxRun, hfDominantFrames, bandMean, qmean, maxContinuousDuration,
      frameDuration, epsQ, hfNoiseClip]
  have hs := C6_hf_fail_score hfNoiseClip 8000 3 hp
  refine ⟨hp, hr, ?_, ?_⟩ <;> rw [hs, hr] <;> norm_num

/-- C4: for every musical analysis, the group verdict is passing exactly when
at least 2 of the 4 checks pass, the passed count is the count over exactly
those 4 checks, and the average score is the arithmetic mean of all four
scores regardless of which passed. -/
theorem C4_musical_aggregate (sampleRate : ℚ) (a : MusicalAnalysis) :
    ((run_musical_checks sampleRate a).passed = true ↔
      2 ≤ (run_musical_checks sampleRate a).passed_count)
    ∧ (run_musical_checks sampleRate a).passed_count =
        ([check_rhythm_consistency sampleRate (3 / 20) a.rhythm,
          check_melody_existence 100 a.melody,
          check_harmonic_balance (1 / 10) a.harmonic,
          check_musical_flow (3 / 10) a.flow].filter (fun r => r.passed)).length
    ∧ (run_musical_checks sampleRate a).avg_score =
        ((check_rhythm_consistency sampleRate (3 / 20) a.rhythm).score
          + (check_melody_existence 100 a.melody).score
          + (check_harmonic_balance (1 / 10) a.harmonic).score
          + (check_musical_flow (3 / 10) a.flow).score) / 4 := by
  refine ⟨?_, rfl, ?_⟩
  · simp [run_musical_checks]
  · simp [run_musical_checks, qmean]
    ring

/-- Witness for C4 at a concrete analysis: 3 of 4 checks pass, so the group
passes, and the average is (0.7 + 0 + 0.8 + 1)/4 = 5/8. -/
theorem C4_musical_aggregate_witness :
    (run_musical_checks 1 sampleMA).passed = true
    ∧ (run_musical_checks 1 sampleMA).passed_count = 3
    ∧ (run_musical_checks 1 sampleMA).avg_score = 5 / 8 := by
  have h := C4_musical_aggregate 1 sampleMA
  have hc : (run_musical_checks 1 sampleMA).passed_count = 3 := by
    norm_num [run_musical_checks, check_rhythm_consistency, check_melody_existence,
      dominantPitches, argmaxIdx, check_harmonic_balance, componentEnergy,
      check_musical_flow, flowScoreOfVariation, qmean, qvar, qmax, qmin, sampleMA]
  refine ⟨h.1.mpr (by rw [hc]; norm_num), hc, ?_⟩
  rw [h.2.2]
  norm_num [check_rhythm_consistency, check_melody_existence, dominantPitches, argmaxIdx,
    check_harmonic_balance, componentEnergy, check_musical_flow, flowScoreOfVariation,
    qmean, qvar, qmax, qmin, sampleMA]

/-- C7: the semantic filter never hard-fails: without the oracle it returns a
fixed pass with weighted score 0.25; when an internal error occurs (the
temporary file cannot be written) it returns a lenient pass with 0.20; on the
normal path the weighted score is 0.4·full + 0.3·emotion + 0.2·genre +
0.1·instrument with missing components defaulting to 0.15, and it passes
exactly when the weighted score reaches 0.15. -/
theorem C7_semantic_never_blocks :
    (∀ env comp, env.clapAvailable = false →
        check_prompt_alignment env comp = ⟨true, 1 / 4, ⟨1 / 4, 1 / 4, 1 / 4, 1 / 4⟩⟩)
    ∧ (∀ env comp, env.clapAvailable = true → env.tempSaveOk = false →
        check_prompt_alignment env comp = ⟨true, 1 / 5, ⟨1 / 5, 1 / 5, 1 / 5, 1 / 5⟩⟩)
    ∧ (∀ env comp, env.clapAvailable = true → env.tempSaveOk = true →
        (check_prompt_alignment env comp).scores = semanticScoresOf env comp
        ∧ (check_prompt_alignment env comp).weighted_score =
            (semanticScoresOf env comp).full_prompt * (2 / 5)
            + (semanticScoresOf env comp).emotion * (3 / 10)
            + (semanticScoresOf env comp).genre * (1 / 5)
            + (semanticScoresOf env comp).instrument * (1 / 10)
        ∧ ((check_prompt_alignment env comp).passed = true ↔
            3 / 20 ≤ (check_prompt_alignment env comp).weighted_score)
        ∧ (comp.genre = "" → (semanticScoresOf env comp).genre = 3 / 20)
        ∧ (comp.emotion = "" → (semanticScoresOf env comp).emotion = 3 / 20)
        ∧ (comp.instrument = "" → (semanticScoresOf env comp).instrument = 3 / 20)) := by
  refine ⟨?_, ?_, ?_⟩
  · intro env comp h
    simp [check_prompt_alignment, h]
  · intro env comp h1 h2
    simp [check_prompt_alignment, h1, h2]
  · intro env comp h1 h2
    refine ⟨?_, ?_, ?_, fun hg => ?_, fun he => ?_, fun hi => ?_⟩
    · simp [check_prompt_alignment, h1, h2]
    · simp [check_prompt_alignment, h1, h2]
    · simp [check_prompt_alignment, h1, h2]
    · simp [semanticScoresOf, hg]
    · simp [semanticScoresOf, he]
    · simp [semanticScoresOf, hi]

/-- Witness for C7: with a working oracle and an empty prompt every component
takes the 0.15 default, giving weighted score 0.15 and a pass; without the
oracle the fixed 0.25 pass is returned. -/
theorem C7_semantic_never_blocks_witness :
    (check_prompt_alignment simEnv emptyComp).weighted_score = 3 / 20
    ∧ (check_prompt_alignment simEnv emptyComp).passed = true
    ∧ check_prompt_alignment noClapEnv emptyComp =
        ⟨true, 1 / 4, ⟨1 / 4, 1 / 4, 1 / 4, 1 / 4⟩⟩ := by
  have h3 := C7_semantic_never_blocks.2.2 simEnv emptyComp rfl rfl
  have hw : (check_prompt_alignment simEnv emptyComp).weighted_score = 3 / 20 := by
    rw [h3.2.1]
    norm_num [semanticScoresOf, calculate_similarity, simEnv, emptyComp]
  refine ⟨hw, h3.2.2.1.mpr (by rw [hw]), C7_semantic_never_blocks.1 noClapEnv emptyComp rfl⟩

/-- C10: whenever the harmonic-balance check runs without an internal error on
audio with nonzero combined energy, its score is one of 0.3, 0.8, 1.0; since
each tier exceeds the default balance threshold 0.1, the pass verdict reduces
to the weaker component holding more than 1% of the energy. -/
theorem C10_harmonic_tiers (a : HarmonicAnalysis)
    (h : componentEnergy a.harmonicComp + componentEnergy a.percussiveComp ≠ 0) :
    ((check_harmonic_balance (1 / 10) (some a)).score = 3 / 10
      ∨ (check_harmonic_balance (1 / 10) (some a)).score = 4 / 5
      ∨ (check_harmonic_balance (1 / 10) (some a)).score = 1)
    ∧ ((check_harmonic_balance (1 / 10) (some a)).passed = true ↔
        1 / 100 < min
          (componentEnergy a.harmonicComp /
            (componentEnergy a.harmonicComp + componentEnergy a.percussiveComp))
          (componentEnergy a.percussiveComp /
            (componentEnergy a.harmonicComp + componentEnergy a.percussiveComp))) := by
  simp only [check_harmonic_balance]
  rw [if_neg h]
  split_ifs <;> refine ⟨by norm_num, ?_⟩ <;> norm_num [decide_eq_true_eq]

/-- Witness for C10: equal harmonic and percussive energies land in the 0.8
tier and pass, since each share is 1/2 > 1/100. -/
theorem C10_harmonic_tiers_witness :
    componentEnergy (HarmonicAnalysis.mk [1] [1]).harmonicComp
        + componentEnergy (HarmonicAnalysis.mk [1] [1]).percussiveComp ≠ 0
    ∧ (check_harmonic_balance (1 / 10) (some (HarmonicAnalysis.mk [1] [1]))).passed = true
    ∧ (check_harmonic_balance (1 / 10) (some (HarmonicAnalysis.mk [1] [1]))).score = 4 / 5 := by
  have hne : componentEnergy (HarmonicAnalysis.mk [1] [1]).harmonicComp
      + componentEnergy (HarmonicAnalysis.mk [1] [1]).percussiveComp ≠ 0 := by
    norm_num [componentEnergy, qmean]
  have h := C10_harmonic_tiers (HarmonicAnalysis.mk [1] [1]) hne
  refine ⟨hne, h.2.mpr ?_, ?_⟩
  · norm_num [componentEnergy, qmean]
  · norm_num [check_harmonic_balance, componentEnergy, qmean]

/-- C1 counterexample: at a clip passing the basic stage, the composite score
of the aggregator (47/80 here) differs from the claimed two-stage formula
clamp(0.3·basicScore + 0.7·musicalScore, 0, 1) (59/80 here): the source
aggregator weighs basic 0.2, musical 0.3, semantic 0.4 plus a 0.1 bonus, and
zeroes (not halves) the musical score when the musical group fails. -/
theorem C1_counterexample :
    (run_all_checks sampleClip 12).overall_passed = true
    ∧ (evaluate_single_music sampleClip sampleMA noClapEnv emptyComp).total_score ≠
        spec_two_stage_total_score true
          (run_musical_checks (sampleClip.sampleRate : ℚ) sampleMA) := by
  have hb : (run_all_checks sampleClip 12).overall_passed = true := by
    norm_num [run_all_checks, check_duration, check_high_frequency_noise, hfMaxRun,
      hfDominantFrames, check_extreme_frequencies, efLowDominantFrames, efHighDominantFrames,
      bandMean, qmean, maxContinuousDuration, frameDuration, epsQ, sampleClip]
  refine ⟨hb, ?_⟩
  norm_num [evaluate_single_music, calculate_total_score, hb, run_all_checks, check_duration,
    check_high_frequency_noise, hfMaxRun, hfDominantFrames, check_extreme_frequencies,
    efLowDominantFrames, efHighDominantFrames, bandMean, maxContinuousDuration, frameDuration,
    epsQ, run_musical_checks, check_rhythm_consistency, check_melody_existence, dominantPitches,
    argmaxIdx, check_harmonic_balance, componentEnergy, check_musical_flow, flowScoreOfVariation,
    check_prompt_alignment, semanticScoresOf, calculate_similarity, spec_two_stage_total_score,
    qmean, qvar, qmax, qmin, sampleClip, sampleMA, noClapEnv, emptyComp]

/-- C1 amended: for every clip passing the basic stage, the composite score is
clamp(0.2·basicScore + 0.3·musicalScore + 0.4·semanticScore + bonus, 0, 1),
with basicScore = 1, musicalScore the musical group average when that group
passed and 0 otherwise, semanticScore the semantic weighted score, and a 0.1
bonus exactly when the musical and semantic stages both passed as well. -/
theorem C1_amended (clip : Clip) (ma : MusicalAnalysis) (env : SemanticEnv)
    (comp : PromptComponents) (h : (run_all_checks clip 12).overall_passed = true) :
    (evaluate_single_music clip ma env comp).total_score =
      max 0 (min 1 ((1 : ℚ) * (1 / 5)
        + (if (run_musical_checks (clip.sampleRate : ℚ) ma).passed
            then (run_musical_checks (clip.sampleRate : ℚ) ma).avg_score else 0) * (3 / 10)
        + (check_prompt_alignment env comp).weighted_score * (2 / 5)
        + (if (run_musical_checks (clip.sampleRate : ℚ) ma).passed
              && (check_prompt_alignment env comp).passed then (1 / 10 : ℚ) else 0))) := by
  simp [evaluate_single_music, calculate_total_score, h]

/-- Witness for the amended C1: at the concrete passing clip the composite
score evaluates to 0.2 + 0.3·(5/8) + 0.4·(1/4) + 0.1 = 47/80. -/
theorem C1_amended_witness :
    (run_all_checks sampleClip 12).overall_passed = true
    ∧ (evaluate_single_music sampleClip sampleMA noClapEnv emptyComp).total_score = 47 / 80 := by
  have hb : (run_all_checks sampleClip 12).overall_passed = true := by
    norm_num [run_all_checks, check_duration, check_high_frequency_noise, hfMaxRun,
      hfDominantFrames, check_extreme_frequencies, efLowDominantFrames, efHighDominantFrames,
      bandMean, qmean, maxContinuousDuration, frameDuration, epsQ, sampleClip]
  refine ⟨hb, ?_⟩
  rw [C1_amended sampleClip sampleMA noClapEnv emptyComp hb]
  norm_num [run_musical_checks, check_rhythm_consistency, check_melody_existence,
    dominantPitches, argmaxIdx, check_harmonic_balance, componentEnergy, check_musical_flow,
    flowScoreOfVariation, check_prompt_alignment, semanticScoresOf, calculate_similarity,
    qmean, qvar, qmax, qmin, sampleClip, sampleMA, noClapEnv, emptyComp]

end FourCo
